import Mathlib

/-!
Verification development for the TodoNexus task-management application.

The embedding follows the repository source:
* the SQL migration (tables `profiles`, `tasks`, `task_shares`, their
  column constraints, and the row-level-security policies);
* the `useTasks` hook (`fetchTasks`, `createTask`, `updateTask`,
  `deleteTask`, `shareTask`), modelled as pure state transformers over a
  database value plus the displayed task list, with a `net` flag standing
  for availability of the storage provider;
* the `TaskCard` component (`handleStatusChange`).

Identifiers are `Nat` (standing for UUIDs), nullable SQL columns are
`Option` values, and `auth.uid()` is an `Option Nat` (none when there is
no authenticated identity).
-/

/-- Row of the `profiles` table. `email TEXT NOT NULL`; the other text
columns are nullable. -/
structure ProfileRow where
  id : Nat
  email : Option String
  full_name : Option String
  avatar_url : Option String
deriving DecidableEq

/-- Row of the `tasks` table. `title TEXT NOT NULL`; `description`,
`due_date`, `priority`, `status` are nullable, the latter two carrying
CHECK constraints. -/
structure TaskRow where
  id : Nat
  user_id : Nat
  title : Option String
  description : Option String
  due_date : Option String
  priority : Option String
  status : Option String
deriving DecidableEq

/-- Row of the `task_shares` table. `shared_by_user_id` is modelled as an
`Option Nat` because the client inserts `user?.id`, which can be absent;
the column itself is NOT NULL, checked at insert time. -/
structure ShareRow where
  id : Nat
  task_id : Nat
  shared_by_user_id : Option Nat
  shared_with_user_id : Nat
  permission : Option String
deriving DecidableEq

/-- The three tables of the schema. -/
structure DB where
  profiles : List ProfileRow
  tasks : List TaskRow
  task_shares : List ShareRow
deriving DecidableEq

/-- SQL equality `auth.uid() = x`: false when there is no authenticated
identity (`auth.uid()` is NULL). -/
def uidEq : Option Nat → Nat → Bool
  | none, _ => false
  | some u, v => u == v

/-- Policy "Users can view own tasks": `auth.uid() = user_id`. -/
def usersCanViewOwnTasks (uid : Option Nat) (t : TaskRow) : Bool :=
  uidEq uid t.user_id

/-- Policy "Users can view shared tasks": a `task_shares` row exists with
`task_id = tasks.id` and `shared_with_user_id = auth.uid()`. -/
def usersCanViewSharedTasks (db : DB) (uid : Option Nat) (t : TaskRow) : Bool :=
  db.task_shares.any fun s => s.task_id == t.id && uidEq uid s.shared_with_user_id

/-- SELECT on `tasks` passes if any SELECT policy matches. -/
def canSelectTask (db : DB) (uid : Option Nat) (t : TaskRow) : Bool :=
  usersCanViewOwnTasks uid t || usersCanViewSharedTasks db uid t

/-- Policy "Users can update own tasks": `auth.uid() = user_id`. -/
def usersCanUpdateOwnTasks (uid : Option Nat) (t : TaskRow) : Bool :=
  uidEq uid t.user_id

/-- Policy "Users can update shared tasks with edit permission". -/
def usersCanUpdateSharedTasksWithEdit (db : DB) (uid : Option Nat) (t : TaskRow) : Bool :=
  db.task_shares.any fun s =>
    s.task_id == t.id && uidEq uid s.shared_with_user_id && s.permission == some "edit"

/-- UPDATE on `tasks` passes if any UPDATE policy matches. -/
def canUpdateTaskRow (db : DB) (uid : Option Nat) (t : TaskRow) : Bool :=
  usersCanUpdateOwnTasks uid t || usersCanUpdateSharedTasksWithEdit db uid t

/-- Policy "Users can delete own tasks": `auth.uid() = user_id`. -/
def usersCanDeleteOwnTasks (uid : Option Nat) (t : TaskRow) : Bool :=
  uidEq uid t.user_id

/-- Policy "Users can insert own tasks": `auth.uid() = user_id`. -/
def usersCanInsertOwnTasks (uid : Option Nat) (t : TaskRow) : Bool :=
  uidEq uid t.user_id

/-- Policy "Users can create shares for their own tasks": the referenced
task exists and is owned by the caller. -/
def usersCanCreateSharesForOwnTasks (db : DB) (uid : Option Nat) (s : ShareRow) : Bool :=
  db.tasks.any fun t => t.id == s.task_id && uidEq uid t.user_id

/-- `CHECK (priority IN ('low', 'medium', 'high'))`; NULL passes a CHECK. -/
def checkPriority : Option String → Bool
  | none => true
  | some p => p == "low" || p == "medium" || p == "high"

/-- `CHECK (status IN ('pending', 'in-progress', 'completed'))`. -/
def checkStatus : Option String → Bool
  | none => true
  | some s => s == "pending" || s == "in-progress" || s == "completed"

/-- `CHECK (permission IN ('view', 'edit'))`. -/
def checkPermission : Option String → Bool
  | none => true
  | some p => p == "view" || p == "edit"

/-- Whether a list of identifiers has no repetition (used for primary-key
constraints). -/
def nodupIds : List Nat → Bool
  | [] => true
  | x :: xs => !(xs.contains x) && nodupIds xs

/-- Constraints declared by `CREATE TABLE public.profiles`: `id` is the
primary key (unique) and `email` is NOT NULL. No uniqueness constraint
is declared on `email`. -/
def profilesTableOk (ps : List ProfileRow) : Bool :=
  nodupIds (ps.map fun p => p.id) && ps.all fun p => p.email.isSome

/-- Errors a storage call can report. Constraint and policy violations
are distinguished for readability only; the client collapses them all
into one failure toast. -/
inductive DbError
  | rlsViolation
  | uniqueViolation
  | checkViolation
  | providerUnavailable
  | noRows
deriving DecidableEq

/-- A fresh generated identifier (stands for `gen_random_uuid()`):
distinct from every identifier already present. -/
def freshId (ids : List Nat) : Nat :=
  ids.foldl max 0 + 1

/-- Column and foreign-key constraints of `CREATE TABLE public.tasks`,
evaluated against the database the row is entering: `title` NOT NULL,
the two CHECK constraints, and `user_id REFERENCES profiles(id)`. -/
def taskRowOk (db : DB) (t : TaskRow) : Bool :=
  t.title.isSome && checkPriority t.priority && checkStatus t.status
    && db.profiles.any fun p => p.id == t.user_id

/-- Column and foreign-key constraints of `CREATE TABLE public.task_shares`:
`shared_by_user_id` NOT NULL, the permission CHECK, and the three
foreign keys. -/
def shareRowOk (db : DB) (s : ShareRow) : Bool :=
  s.shared_by_user_id.isSome && checkPermission s.permission
    && (db.tasks.any fun t => t.id == s.task_id)
    && (match s.shared_by_user_id with
        | some b => db.profiles.any fun p => p.id == b
        | none => false)
    && db.profiles.any fun p => p.id == s.shared_with_user_id

/-- INSERT into `tasks`: the RLS WITH CHECK, then the primary key, then
the column constraints; on success the row is appended. -/
def dbInsertTask (db : DB) (uid : Option Nat) (t : TaskRow) : Except DbError DB :=
  if !(usersCanInsertOwnTasks uid t) then .error .rlsViolation
  else if db.tasks.any (fun x => x.id == t.id) then .error .uniqueViolation
  else if !(taskRowOk db t) then .error .checkViolation
  else .ok { db with tasks := db.tasks ++ [t] }

/-- A `Partial<Task>` update payload: each field is either absent or a
new column value. -/
structure TaskUpdates where
  title : Option (Option String)
  description : Option (Option String)
  due_date : Option (Option String)
  priority : Option (Option String)
  status : Option (Option String)
deriving DecidableEq

/-- Overwrite exactly the supplied fields of a task row. -/
def applyUpdates (t : TaskRow) (u : TaskUpdates) : TaskRow :=
  { t with
    title := u.title.getD t.title
    description := u.description.getD t.description
    due_date := u.due_date.getD t.due_date
    priority := u.priority.getD t.priority
    status := u.status.getD t.status }

/-- `UPDATE tasks SET ... WHERE id = taskId`: RLS restricts the update to
rows the caller may update; a row the caller may not update, or a
missing id, is simply not matched (zero rows affected, no error). The
statement errors only when an updated row violates a column constraint. -/
def dbUpdateTasks (db : DB) (uid : Option Nat) (taskId : Nat) (u : TaskUpdates) :
    Except DbError DB :=
  let hit := fun t : TaskRow => t.id == taskId && canUpdateTaskRow db uid t
  let targets := db.tasks.filter hit
  if targets.all (fun t => taskRowOk db (applyUpdates t u)) then
    .ok { db with tasks := db.tasks.map fun t => if hit t then applyUpdates t u else t }
  else .error .checkViolation

/-- `DELETE FROM tasks WHERE id = taskId`: RLS restricts the deletion to
rows the caller owns; `task_shares.task_id ... ON DELETE CASCADE`
removes every share of a deleted task. -/
def dbDeleteTask (db : DB) (uid : Option Nat) (taskId : Nat) : DB :=
  let hit := fun t : TaskRow => t.id == taskId && usersCanDeleteOwnTasks uid t
  let deletedIds := (db.tasks.filter hit).map fun t => t.id
  { db with
    tasks := db.tasks.filter fun t => !(hit t)
    task_shares := db.task_shares.filter fun s => !(deletedIds.contains s.task_id) }

/-- INSERT into `task_shares`: the RLS WITH CHECK, the primary key, the
`UNIQUE(task_id, shared_with_user_id)` constraint, then the column
constraints; on success the row is appended. -/
def dbInsertShare (db : DB) (uid : Option Nat) (s : ShareRow) : Except DbError DB :=
  if !(usersCanCreateSharesForOwnTasks db uid s) then .error .rlsViolation
  else if db.task_shares.any (fun x => x.id == s.id) then .error .uniqueViolation
  else if db.task_shares.any (fun x =>
      x.task_id == s.task_id && x.shared_with_user_id == s.shared_with_user_id) then
    .error .uniqueViolation
  else if !(shareRowOk db s) then .error .checkViolation
  else .ok { db with task_shares := db.task_shares ++ [s] }

/-- User-visible outcome of a `useTasks` operation: the success toast,
the dedicated "User not found with this email address" toast of
`shareTask`, the generic failure toast of a catch branch, or the silent
early return taken when there is no authenticated user. -/
inductive Outcome
  | success
  | userNotFound
  | mutationFailed
  | silentNoop
deriving DecidableEq

/-- Client-side state of the `useTasks` hook: the backing database and
the `tasks` React state currently displayed. -/
structure ClientState where
  db : DB
  tasks : List TaskRow
deriving DecidableEq

/-- The list produced by the two queries of `fetchTasks` for user `u`:
tasks with `user_id = u`, followed by tasks having an inner-joined
`task_shares` row with `shared_with_user_id = u`. The two result sets
are concatenated as in the source (no de-duplication step). -/
def fetchTasksQuery (db : DB) (u : Nat) : List TaskRow :=
  let ownedTasks := db.tasks.filter fun t => t.user_id == u
  let sharedTasks := db.tasks.filter fun t =>
    db.task_shares.any fun s => s.task_id == t.id && s.shared_with_user_id == u
  ownedTasks ++ sharedTasks

/-- `fetchTasks`: returns immediately when there is no user; on a
provider failure the catch branch leaves the displayed list unchanged;
otherwise `setTasks` stores the query result. -/
def fetchTasks (st : ClientState) (user : Option Nat) (net : Bool) : ClientState :=
  match user with
  | none => st
  | some u => if net then { st with tasks := fetchTasksQuery st.db u } else st

/-- The argument of `createTask`: `Omit<Task, 'id' | 'user_id' | ...>`.
`title`, `priority` and `status` are non-null strings in the client
type. -/
structure TaskData where
  title : String
  description : Option String
  due_date : Option String
  priority : String
  status : String
deriving DecidableEq

/-- `createTask`: early return when unauthenticated; otherwise insert the
row with `user_id = user.id`; an insert error reaches the catch branch
(failure toast, state untouched); success re-fetches and toasts. -/
def createTask (st : ClientState) (user : Option Nat) (net : Bool) (d : TaskData) :
    Outcome × ClientState :=
  match user with
  | none => (.silentNoop, st)
  | some u =>
    let row : TaskRow :=
      ⟨freshId (st.db.tasks.map fun t => t.id), u,
        some d.title, d.description, d.due_date, some d.priority, some d.status⟩
    match (if net then dbInsertTask st.db (some u) row
           else .error .providerUnavailable) with
    | .error _ => (.mutationFailed, st)
    | .ok db' => (.success, fetchTasks { st with db := db' } (some u) net)

/-- `updateTask`: issue the update statement; a storage error reaches the
catch branch (failure toast, state untouched); otherwise — even when
zero rows were affected — re-fetch and toast success. -/
def updateTask (st : ClientState) (user : Option Nat) (net : Bool) (taskId : Nat)
    (u : TaskUpdates) : Outcome × ClientState :=
  match (if net then dbUpdateTasks st.db user taskId u
         else .error .providerUnavailable) with
  | .error _ => (.mutationFailed, st)
  | .ok db' => (.success, fetchTasks { st with db := db' } user net)

/-- `deleteTask`: issue the delete statement; a storage error reaches the
catch branch; otherwise re-fetch and toast success. -/
def deleteTask (st : ClientState) (user : Option Nat) (net : Bool) (taskId : Nat) :
    Outcome × ClientState :=
  match (if net then Except.ok (dbDeleteTask st.db user taskId)
         else Except.error DbError.providerUnavailable) with
  | .error _ => (.mutationFailed, st)
  | .ok db' => (.success, fetchTasks { st with db := db' } user net)

/-- `shareTask`: look the recipient up by email with `.single()` (an
error, or anything but exactly one row, takes the "User not found"
branch and returns); then insert the share row with
`shared_by_user_id = user?.id`; an insert error reaches the catch
branch; success re-fetches and toasts. -/
def shareTask (st : ClientState) (user : Option Nat) (net : Bool) (taskId : Nat)
    (email : String) (permission : String) : Outcome × ClientState :=
  let lookup : Except DbError ProfileRow :=
    if !net then .error .providerUnavailable
    else match st.db.profiles.filter (fun p => p.email == some email) with
      | [p] => .ok p
      | _ => .error .noRows
  match lookup with
  | .error _ => (.userNotFound, st)
  | .ok p =>
    let row : ShareRow :=
      ⟨freshId (st.db.task_shares.map fun s => s.id), taskId, user, p.id, some permission⟩
    match dbInsertShare st.db user row with
    | .error _ => (.mutationFailed, st)
    | .ok db' => (.success, fetchTasks { st with db := db' } user net)

/-- `statusOrder` from `TaskCard.handleStatusChange`. -/
def statusOrder : List String := ["pending", "in-progress", "completed"]

/-- `handleStatusChange` from `TaskCard`: advance the status to the next
entry of `statusOrder`, cyclically. -/
def handleStatusChange (status : String) : String :=
  let currentIndex := statusOrder.indexOf status
  let nextIndex := (currentIndex + 1) % statusOrder.length
  statusOrder.getD nextIndex ""

def aliceProfile : ProfileRow := ⟨1, some "alice@example.com", none, none⟩

def bobProfile : ProfileRow := ⟨2, some "bob@example.com", none, none⟩

def reportTask : TaskRow := ⟨10, 1, some "Write report", none, none, some "high", some "pending"⟩

def bobViewShare : ShareRow := ⟨100, 10, some 1, 2, some "view"⟩

def sharedDb : DB := ⟨[aliceProfile, bobProfile], [reportTask], [bobViewShare]⟩

def sharedState : ClientState := ⟨sharedDb, fetchTasksQuery sharedDb 1⟩

def selfShareTask : TaskRow := ⟨1, 1, some "note", none, none, some "medium", some "pending"⟩

def selfShare : ShareRow := ⟨5, 1, some 1, 1, some "view"⟩

def selfShareDb : DB := ⟨[aliceProfile], [selfShareTask], [selfShare]⟩

def aliceOnlyState : ClientState := ⟨⟨[aliceProfile], [], []⟩, []⟩

def completeStatusUpdate : TaskUpdates := ⟨none, none, none, none, some (some "completed")⟩

def emptyTitleData : TaskData := ⟨"", none, none, "medium", "pending"⟩

def dupEmailA : ProfileRow := ⟨1, some "dup@example.com", none, none⟩

def dupEmailB : ProfileRow := ⟨2, some "dup@example.com", none, none⟩

/-- A re-fetch never changes the backing database, only the displayed
list. -/
theorem fetchTasks_db (st : ClientState) (user : Option Nat) (net : Bool) :
    (fetchTasks st user net).db = st.db := by
  unfold fetchTasks
  cases user <;> cases net <;> simp

/-- C10: `handleStatusChange` cycles pending → in-progress → completed →
pending, so applying it three times is the identity on each of the three
statuses. -/
theorem handleStatusChange_cycle :
    handleStatusChange "pending" = "in-progress" ∧
    handleStatusChange "in-progress" = "completed" ∧
    handleStatusChange "completed" = "pending" ∧
    handleStatusChange (handleStatusChange (handleStatusChange "pending")) = "pending" ∧
    handleStatusChange (handleStatusChange (handleStatusChange "in-progress")) = "in-progress" ∧
    handleStatusChange (handleStatusChange (handleStatusChange "completed")) = "completed" := by
  decide

/-- C1: the SELECT policies on `tasks` allow a caller to read a task row
iff the caller is its owner or a share row names the caller as
recipient; with no authenticated identity the read is always denied. -/
theorem canSelectTask_spec (db : DB) (t : TaskRow) :
    canSelectTask db none t = false ∧
    ∀ u : Nat, (canSelectTask db (some u) t = true ↔
      (t.user_id = u ∨ ∃ s ∈ db.task_shares, s.task_id = t.id ∧ s.shared_with_user_id = u)) := by
  constructor
  · simp [canSelectTask, usersCanViewOwnTasks, usersCanViewSharedTasks, uidEq]
  · intro u
    simp only [canSelectTask, usersCanViewOwnTasks, usersCanViewSharedTasks, uidEq,
      Bool.or_eq_true, List.any_eq_true, Bool.and_eq_true, beq_iff_eq]
    constructor
    · rintro (h | ⟨s, hs, h1, h2⟩)
      · exact Or.inl h.symm
      · exact Or.inr ⟨s, hs, h1, h2.symm⟩
    · rintro (h | ⟨s, hs, h1, h2⟩)
      · exact Or.inl h.symm
      · exact Or.inr ⟨s, hs, h1, h2.symm⟩

/-- C2: re-sharing a task with a recipient who already holds a share does
NOT replace the grant — the plain insert hits
`UNIQUE(task_id, shared_with_user_id)`, the call fails with the generic
failure toast, and the original view-level grant is left in place
(demonstrated on a state where task 10, owned by user 1, is already
shared with user 2 at permission view). -/
theorem shareTask_existing_share_fails :
    shareTask sharedState (some 1) true 10 "bob@example.com" "edit"
      = (Outcome.mutationFailed, sharedState) ∧
    sharedState.db.task_shares.map (fun s => (s.task_id, s.shared_with_user_id, s.permission))
      = [(10, 2, some "view")] := by
  decide

/-- C3: `updateTask` reports success both when the caller holds only a
view-level share (the update statement matches zero rows and changes
nothing) and when no task with the given id exists; it surfaces neither
an authorization failure nor a not-found failure. -/
theorem updateTask_denied_reports_success :
    (updateTask sharedState (some 2) true 10 completeStatusUpdate).fst = Outcome.success ∧
    (updateTask sharedState (some 2) true 10 completeStatusUpdate).snd.db = sharedState.db ∧
    (updateTask sharedState (some 2) true 99 completeStatusUpdate).fst = Outcome.success ∧
    (updateTask sharedState (some 2) true 99 completeStatusUpdate).snd.db = sharedState.db := by
  decide

/-- C4: the visible task list is NOT de-duplicated: on a state where task
1 is owned by user 1 and also shared with user 1, the query result of
`fetchTasks` lists task id 1 twice. -/
theorem fetchTasksQuery_duplicates_self_shared_task :
    (fetchTasksQuery selfShareDb 1).map (fun t => t.id) = [1, 1] := by
  decide

/-- C5 counterexample: with an authenticated caller, `createTask` on an
empty title succeeds and creates the task — there is no validation
failure. -/
theorem createTask_empty_title_succeeds :
    (createTask aliceOnlyState (some 1) true emptyTitleData).fst = Outcome.success ∧
    (createTask aliceOnlyState (some 1) true emptyTitleData).snd.db.tasks ≠ [] := by
  decide

/-- C5 (amended): `createTask` with no authenticated caller returns
silently — no task is created but no error is surfaced either — and
performs no title validation: an empty title is inserted successfully. -/
theorem createTask_silent_unauth_and_no_validation :
    (∀ (st : ClientState) (net : Bool) (d : TaskData),
      createTask st none net d = (Outcome.silentNoop, st)) ∧
    (createTask aliceOnlyState (some 1) true emptyTitleData).fst = Outcome.success ∧
    (createTask aliceOnlyState (some 1) true emptyTitleData).snd.db.tasks.map (fun t => t.title)
      = [some ""] := by
  refine ⟨fun st net d => rfl, by decide, by decide⟩

/-- C9 counterexample: two profile rows with distinct ids and the same
email satisfy every constraint declared on the `profiles` table — email
uniqueness is not enforced. -/
theorem profilesTableOk_duplicate_email :
    profilesTableOk [dupEmailA, dupEmailB] = true ∧
    dupEmailA.email = dupEmailB.email ∧ dupEmailA.id ≠ dupEmailB.id := by
  decide

/-- C9 (amended): the `profiles` table does require an email — every row
of a table state satisfying the declared constraints has a non-null
email. (Uniqueness of email is not among the declared constraints; see
the counterexample.) -/
theorem profilesTableOk_email_required (ps : List ProfileRow)
    (h : profilesTableOk ps = true) :
    ∀ p ∈ ps, p.email.isSome = true := by
  unfold profilesTableOk at h
  simp only [Bool.and_eq_true, List.all_eq_true] at h
  exact h.2

/-- Witness for the amended C9 theorem at a concrete table state. -/
theorem profilesTableOk_email_required_witness :
    profilesTableOk [aliceProfile] = true ∧ aliceProfile.email.isSome = true :=
  ⟨by decide, profilesTableOk_email_required [aliceProfile] (by decide) aliceProfile (by decide)⟩

/-- C6: when no profile row carries the given email, `shareTask` takes
the "User not found" branch and returns the client state unchanged — in
particular no share row is inserted. -/
theorem shareTask_unknown_email_not_found (st : ClientState) (user : Option Nat)
    (net : Bool) (taskId : Nat) (email : String) (permission : String)
    (h : st.db.profiles.filter (fun p => p.email == some email) = []) :
    shareTask st user net taskId email permission = (Outcome.userNotFound, st) := by
  unfold shareTask
  cases net with
  | false => simp
  | true => simp [h]

/-- Witness for the C6 theorem: sharing to an address with no matching
profile on a concrete state. -/
theorem shareTask_unknown_email_not_found_witness :
    aliceOnlyState.db.profiles.filter (fun p => p.email == some "nobody@nowhere.test") = [] ∧
    shareTask aliceOnlyState (some 1) true 10 "nobody@nowhere.test" "view"
      = (Outcome.userNotFound, aliceOnlyState) :=
  ⟨by decide,
    shareTask_unknown_email_not_found aliceOnlyState (some 1) true 10
      "nobody@nowhere.test" "view" (by decide)⟩

/-- Rows removed by the delete statement drag every share referencing
them out of `task_shares` via `ON DELETE CASCADE`. -/
theorem dbDeleteTask_cascades (db : DB) (uid : Option Nat) (taskId : Nat) (t : TaskRow)
    (h1 : t ∈ db.tasks) (h2 : t ∉ (dbDeleteTask db uid taskId).tasks) :
    ((dbDeleteTask db uid taskId).task_shares.all fun s => !(s.task_id == t.id)) = true := by
  have h2' : t.id = taskId ∧ usersCanDeleteOwnTasks uid t = true := by
    have h := h2
    simp [dbDeleteTask] at h
    exact h h1
  have hhit : (t.id == taskId && usersCanDeleteOwnTasks uid t) = true := by
    simp [h2'.1, h2'.2]
  have hmem : t.id ∈ (db.tasks.filter fun x => x.id == taskId && usersCanDeleteOwnTasks uid x).map (fun x => x.id) :=
    List.mem_map.mpr ⟨t, List.mem_filter.mpr ⟨h1, hhit⟩, rfl⟩
  simp only [dbDeleteTask, List.all_eq_true]
  intro s hs
  have hs2 := (List.mem_filter.mp hs).2
  simp only [Bool.not_eq_true'] at hs2
  have hnot : s.task_id ∉ (db.tasks.filter fun x => x.id == taskId && usersCanDeleteOwnTasks uid x).map (fun x => x.id) := by
    simpa using hs2
  simp only [Bool.not_eq_true', beq_eq_false_iff_ne, ne_eq]
  intro heq
  exact hnot (heq ▸ hmem)

/-- C7: when `deleteTask` removes a task, no share row referencing that
task survives in the resulting state. -/
theorem deleteTask_cascades_shares (st : ClientState) (user : Option Nat) (net : Bool)
    (taskId : Nat) (t : TaskRow) (h1 : t ∈ st.db.tasks)
    (h2 : t ∉ (deleteTask st user net taskId).snd.db.tasks) :
    ((deleteTask st user net taskId).snd.db.task_shares.all fun s => !(s.task_id == t.id)) = true := by
  cases net with
  | false =>
    exact absurd h1 (by simpa [deleteTask] using h2)
  | true =>
    have hdb : (deleteTask st user true taskId).snd.db = dbDeleteTask st.db user taskId := by
      simpa [deleteTask] using fetchTasks_db { st with db := dbDeleteTask st.db user taskId } user true
    rw [hdb] at h2 ⊢
    exact dbDeleteTask_cascades st.db user taskId t h1 h2

/-- Witness for the C7 theorem: the owner deletes the shared report task
on a concrete state; its share row is gone. -/
theorem deleteTask_cascades_shares_witness :
    reportTask ∈ sharedState.db.tasks ∧
    reportTask ∉ (deleteTask sharedState (some 1) true 10).snd.db.tasks ∧
    ((deleteTask sharedState (some 1) true 10).snd.db.task_shares.all
      fun s => !(s.task_id == reportTask.id)) = true :=
  ⟨by decide, by decide,
    deleteTask_cascades_shares sharedState (some 1) true 10 reportTask (by decide) (by decide)⟩

/-- C8: a mutation that does not reach the success path leaves the whole
client state — backing database and displayed task list alike — exactly
as it was; no partially applied view is ever shown. -/
theorem failed_mutation_preserves_state (st : ClientState) (user : Option Nat) (net : Bool)
    (d : TaskData) (taskId : Nat) (u : TaskUpdates) (email : String) (permission : String) :
    ((createTask st user net d).fst ≠ Outcome.success → (createTask st user net d).snd = st) ∧
    ((updateTask st user net taskId u).fst ≠ Outcome.success → (updateTask st user net taskId u).snd = st) ∧
    ((deleteTask st user net taskId).fst ≠ Outcome.success → (deleteTask st user net taskId).snd = st) ∧
    ((shareTask st user net taskId email permission).fst ≠ Outcome.success →
      (shareTask st user net taskId email permission).snd = st) := by
  refine ⟨?_, ?_, ?_, ?_⟩
  · simp only [createTask]
    split
    · simp
    · split <;> simp
  · simp only [updateTask]
    split <;> simp
  · simp only [deleteTask]
    split <;> simp
  · simp only [shareTask]
    split
    · simp
    · split <;> simp

/-- Witness for the C8 theorem: four concrete failing mutations — an
unauthenticated create, an update and a delete with the provider
unreachable, and a share to an unknown email — each leave the state
untouched. -/
theorem failed_mutation_preserves_state_witness :
    (createTask aliceOnlyState none true ⟨"x", none, none, "medium", "pending"⟩).snd = aliceOnlyState ∧
    (updateTask aliceOnlyState (some 1) false 1 ⟨none, none, none, none, none⟩).snd = aliceOnlyState ∧
    (deleteTask aliceOnlyState (some 1) false 1).snd = aliceOnlyState ∧
    (shareTask aliceOnlyState (some 1) true 1 "nobody@nowhere.test" "view").snd = aliceOnlyState :=
  ⟨(failed_mutation_preserves_state aliceOnlyState none true
      ⟨"x", none, none, "medium", "pending"⟩ 1 ⟨none, none, none, none, none⟩ "" "").1 (by decide),
   (failed_mutation_preserves_state aliceOnlyState (some 1) false
      ⟨"x", none, none, "medium", "pending"⟩ 1 ⟨none, none, none, none, none⟩ "" "").2.1 (by decide),
   (failed_mutation_preserves_state aliceOnlyState (some 1) false
      ⟨"x", none, none, "medium", "pending"⟩ 1 ⟨none, none, none, none, none⟩ "" "").2.2.1 (by decide),
   (failed_mutation_preserves_state aliceOnlyState (some 1) true
      ⟨"x", none, none, "medium", "pending"⟩ 1 ⟨none, none, none, none, none⟩
      "nobody@nowhere.test" "view").2.2.2 (by decide)⟩
